import Mathlib

/-!
Verification development for the sun-simulation repository.

The canonical program is `src/src/main.js` (first historical version, lines
1-627): a single-threaded browser animation loop over a three.js scene.  The
definitions below are a shallow embedding of the data model and of the
per-frame update code that the claims are about.  JavaScript numbers are
modelled as real numbers; the static configuration table uses exact rational
literals for the decimal constants of the source.  Randomness (Math.random)
is modelled by passing the drawn values as explicit arguments.  The external
rendering engine (three.js meshes, composer, passes) is modelled only through
the state it owns that the program reads and writes: rotations, positions,
material references, sizes.
-/

/-- A three-component real vector, modelling `THREE.Vector3`. -/
structure Vec3 where
  x : ℝ
  y : ℝ
  z : ℝ

/-- Componentwise addition, as `Vector3.add` / `addScaledVector` building block. -/
def Vec3.add (v w : Vec3) : Vec3 := ⟨v.x + w.x, v.y + w.y, v.z + w.z⟩

/-- Componentwise subtraction, as `Vector3.sub`. -/
def Vec3.sub (v w : Vec3) : Vec3 := ⟨v.x - w.x, v.y - w.y, v.z - w.z⟩

/-- Scalar multiplication, as `Vector3.multiplyScalar`. -/
def Vec3.smul (c : ℝ) (v : Vec3) : Vec3 := ⟨c * v.x, c * v.y, c * v.z⟩

/-- Euclidean length, as `Vector3.length`. -/
noncomputable def Vec3.norm (v : Vec3) : ℝ :=
  Real.sqrt (v.x ^ 2 + v.y ^ 2 + v.z ^ 2)

/-- `Vector3.normalize`: divide by the length.  (three.js divides by
`length() || 1`; for the zero vector both conventions yield the zero vector,
since in Mathlib `1 / 0 = 0`.) -/
noncomputable def Vec3.normalize (v : Vec3) : Vec3 :=
  Vec3.smul (1 / Vec3.norm v) v

/-- One row of the static planet table (`planetsData`, main.js lines 139-146).
Decimal literals of the source are written as exact rationals. -/
structure PlanetData where
  name : String
  radius : ℚ
  orbitalRadius : ℚ
  orbitalSpeed : ℚ
  eccentricity : ℚ
  color : ℕ
  rotationSpeed : ℚ
  texture : Option String

/-- Mercury row of `planetsData` (main.js line 139). -/
def mercuryData : PlanetData :=
  ⟨"Mercury", 5/100, 15/10, 48/1000, 205/1000, 0xAAAAAA, 5/1000, some ("textures/mercury.jpg")⟩

/-- The full `planetsData` table (main.js lines 138-147).  There are exactly
eight entries: the eight planets.  No moon appears anywhere in the table or
in the rest of the program. -/
def planetsData : List PlanetData :=
  [mercuryData,
   ⟨"Venus", 8/100, 2, 35/1000, 7/1000, 0xE6B800, 3/1000, some ("textures/venus_surface.jpg")⟩,
   ⟨"Earth", 9/100, 28/10, 298/10000, 17/1000, 0x0077BE, 2/100, some ("textures/earth.jpg")⟩,
   ⟨"Mars", 6/100, 35/10, 24/1000, 94/1000, 0xCC0000, 15/1000, some ("textures/mars.jpg")⟩,
   ⟨"Jupiter", 4/10, 6, 13/1000, 49/1000, 0xC48F57, 3/100, some ("textures/jupiter.jpg")⟩,
   ⟨"Saturn", 35/100, 75/10, 9/1000, 57/1000, 0xDAA520, 28/1000, some ("textures/saturn.jpg")⟩,
   ⟨"Uranus", 2/10, 9, 6/1000, 46/1000, 0xADD8E6, 1/100, some ("textures/uranus.jpg")⟩,
   ⟨"Neptune", 19/100, 105/10, 5/1000, 11/1000, 0x4169E1, 9/1000, some ("textures/neptune.jpg")⟩]

/-- JavaScript `name.charCodeAt(0)`: the code of the first character
(main.js line 555, `const planetSeed = data.name.charCodeAt(0)`). -/
def charCodeAt0 (s : String) : ℕ := (String.get s ⟨0⟩).toNat

/-- The per-planet orbital tilt (main.js line 556):
`const tiltAngle = (planetSeed % 20) * 0.01`. -/
noncomputable def tiltAngle (d : PlanetData) : ℝ :=
  ((charCodeAt0 d.name % 20 : ℕ) : ℝ) * (1/100)

/-- The mutable per-planet state the frame loop touches: the mesh transform
and the identity of the material the mesh references.  Material identity is
modelled as a numeral tag; the program never reassigns `planet.material`, it
only reads it through the renderer. -/
structure PlanetState where
  position : Vec3
  rotationY : ℝ
  materialRef : ℕ

/-- The per-frame planet update (main.js lines 541-567):

```
const angle = currentTime * data.orbitalSpeed;
const a = data.orbitalRadius;
const e = data.eccentricity;
const b = a * Math.sqrt(1 - e * e);
const x = a * Math.cos(angle);
const z = b * Math.sin(angle);
const planetSeed = data.name.charCodeAt(0);
const tiltAngle = (planetSeed % 20) * 0.01;
object.position.set(x, Math.sin(angle) * Math.sin(tiltAngle) * a * 0.05, z);
object.rotation.y += data.rotationSpeed;
```
-/
noncomputable def updatePlanet (currentTime : ℝ) (d : PlanetData) (st : PlanetState) :
    PlanetState :=
  let angle : ℝ := currentTime * (d.orbitalSpeed : ℝ)
  let a : ℝ := (d.orbitalRadius : ℝ)
  let e : ℝ := (d.eccentricity : ℝ)
  let b : ℝ := a * Real.sqrt (1 - e * e)
  { st with
    position :=
      ⟨a * Real.cos angle,
       Real.sin angle * Real.sin (tiltAngle d) * a * (5/100),
       b * Real.sin angle⟩,
    rotationY := st.rotationY + (d.rotationSpeed : ℝ) }

/-- Modelled from the claim wording of C3 (spec section 4.2): the orbit
position formula `(a cos(t w), sin(t w) sin(tilt) a k, b sin(t w))` with
`b = a sqrt(1 - e^2)` and `k = 0.05`, stated independently of the source so
that the source update can be compared against it. -/
noncomputable def specOrbitPosition (a e omega tilt t : ℝ) : Vec3 :=
  ⟨a * Real.cos (t * omega),
   Real.sin (t * omega) * Real.sin tilt * a * (5/100),
   (a * Real.sqrt (1 - e ^ 2)) * Real.sin (t * omega)⟩

/-- The planet update never touches the material reference. -/
@[simp] lemma updatePlanet_materialRef (t : ℝ) (d : PlanetData) (st : PlanetState) :
    (updatePlanet t d st).materialRef = st.materialRef := rfl

/-- C3: for every (non-moon) body with semi-major axis `a`, eccentricity `e`
and angular speed `w`, and every elapsed time `t`, the per-frame update sets
the position to `(a cos(t w), sin(t w) sin(tilt) a k, b sin(t w))` with
`b = a sqrt(1 - e^2)`, `k = 0.05`, and `tilt` derived deterministically from
the first character code of the body name. -/
theorem c3_planet_orbit_formula (d : PlanetData) (st : PlanetState) (t : ℝ) :
    (updatePlanet t d st).position =
      specOrbitPosition (d.orbitalRadius : ℝ) (d.eccentricity : ℝ)
        (d.orbitalSpeed : ℝ) (tiltAngle d) t := by
  simp [updatePlanet, specOrbitPosition, pow_two]

/-- C9: at `angle = 0` (elapsed time zero) the computed orbit position is
exactly `(a, 0, 0)`: the cosine is exactly 1 and the sine exactly 0, so no
tolerance is needed. -/
theorem c9_position_at_angle_zero (d : PlanetData) (st : PlanetState) :
    (updatePlanet 0 d st).position = ⟨(d.orbitalRadius : ℝ), 0, 0⟩ := by
  simp [updatePlanet]

/-- Shooting-star scene constants (main.js lines 278, 295-298). -/
noncomputable def starFieldRadius : ℝ := 500

/-- `const shootingStarSpeed = 250` (main.js line 295). -/
noncomputable def shootingStarSpeed : ℝ := 250

/-- `const shootingStarLife = 2.5` (main.js line 297). -/
noncomputable def shootingStarLife : ℝ := 5/2

/-- `const trailLength = 100` (main.js line 298): capacity of the trail
history. -/
def trailLength : ℕ := 100

/-- The mutable state of one pooled shooting star (main.js lines 326-334):
the fields of the object pushed by `createShootingStar`, together with the
parts of the referenced three.js objects that the program mutates
(`material.opacity`, `trail.material.opacity`) and the identities of the two
materials (which the program never reassigns). -/
structure ShootingStar where
  position : Vec3
  originalPosition : Vec3
  velocity : Vec3
  life : ℝ
  maxLife : ℝ
  opacity : ℝ
  trailOpacity : ℝ
  trailPositions : List Vec3
  materialRef : ℕ
  trailMaterialRef : ℕ

/-- The five `Math.random()` draws consumed by one call of
`resetShootingStar` (main.js lines 341-356), each a raw draw before the
`(r - 0.5) * 2 * starFieldRadius` scaling applied in the function. -/
structure ResetRand where
  startYRand : ℝ
  startZRand : ℝ
  targetYRand : ℝ
  targetZRand : ℝ
  maxLifeRand : ℝ

/-- The start position chosen by `resetShootingStar` (main.js lines 340-344):
`(-starFieldRadius * 1.2, (r - 0.5) * 2 * starFieldRadius, (r - 0.5) * 2 * starFieldRadius)`. -/
noncomputable def resetStartPos (r : ResetRand) : Vec3 :=
  ⟨-starFieldRadius * (12/10),
   (r.startYRand - 1/2) * 2 * starFieldRadius,
   (r.startZRand - 1/2) * 2 * starFieldRadius⟩

/-- The target position chosen by `resetShootingStar` (main.js lines 348-350):
`(starFieldRadius * 1.2, (r - 0.5) * 2 * starFieldRadius, (r - 0.5) * 2 * starFieldRadius)`. -/
noncomputable def resetTargetPos (r : ResetRand) : Vec3 :=
  ⟨starFieldRadius * (12/10),
   (r.targetYRand - 1/2) * 2 * starFieldRadius,
   (r.targetZRand - 1/2) * 2 * starFieldRadius⟩

/-- `resetShootingStar` (main.js lines 338-363): place the star at a random
left-edge position, aim it at a random right-edge position with velocity
`normalize(target - start) * shootingStarSpeed`, zero the age, redraw the
maximum age as `shootingStarLife * (0.8 + r * 0.4)`, restore the main-star
material opacity to 1, clear the trail history and zero the trail material
opacity. -/
noncomputable def resetShootingStar (r : ResetRand) (s : ShootingStar) : ShootingStar :=
  let direction := Vec3.normalize (Vec3.sub (resetTargetPos r) (resetStartPos r))
  { s with
    position := resetStartPos r,
    originalPosition := resetStartPos r,
    velocity := Vec3.smul shootingStarSpeed direction,
    life := 0,
    maxLife := shootingStarLife * (8/10 + r.maxLifeRand * (4/10)),
    opacity := 1,
    trailPositions := [],
    trailOpacity := 0 }

/-- The star object as first pushed by `createShootingStar` (main.js lines
326-334), before the immediate `resetShootingStar` call: zero vectors, zero
life, empty trail.  Material tags 0 and 1 stand for the two materials
allocated for this star. -/
def starInit : ShootingStar :=
  { position := ⟨0, 0, 0⟩, originalPosition := ⟨0, 0, 0⟩, velocity := ⟨0, 0, 0⟩,
    life := 0, maxLife := 0, opacity := 1, trailOpacity := 0,
    trailPositions := [], materialRef := 0, trailMaterialRef := 1 }

/-- `createShootingStar` (main.js lines 300-336): push a fresh star object
and immediately reset it. -/
noncomputable def createShootingStar (r : ResetRand) : ShootingStar :=
  resetShootingStar r starInit

/-- The trail trim of the per-frame update (main.js lines 509-512): after the
push, `if (trailPositions.length > trailLength) trailPositions.shift()` —
drop the oldest entry when over capacity. -/
def trimTrail (l : List Vec3) : List Vec3 :=
  if l.length > trailLength then l.tail else l

/-- The unconditional part of the per-frame shooting-star update (main.js
lines 501-529): integrate `position += velocity * dt`, advance `life += dt`,
append the new position to the trail history (newest last), trim the history
to capacity, and fade the main-star material opacity to `1 - life/maxLife`.
The writes of the trail geometry attributes and per-point colours go into
engine-owned buffers that no claim reads back; they carry no program state. -/
noncomputable def starStepCore (dt : ℝ) (s : ShootingStar) : ShootingStar :=
  let pos2 := Vec3.add s.position (Vec3.smul dt s.velocity)
  let life2 := s.life + dt
  { s with
    position := pos2,
    life := life2,
    trailPositions := trimTrail (s.trailPositions ++ [pos2]),
    opacity := 1 - life2 / s.maxLife }

/-- The reset guard of the per-frame update (main.js lines 532-534),
evaluated on the already-updated star:
`life > maxLife || position.x > starFieldRadius * 1.5 || position.x < -starFieldRadius * 1.5 || ...`
for all three axes. -/
def shouldReset (s : ShootingStar) : Prop :=
  s.life > s.maxLife ∨
  s.position.x > starFieldRadius * (3/2) ∨ s.position.x < -starFieldRadius * (3/2) ∨
  s.position.y > starFieldRadius * (3/2) ∨ s.position.y < -starFieldRadius * (3/2) ∨
  s.position.z > starFieldRadius * (3/2) ∨ s.position.z < -starFieldRadius * (3/2)

open Classical in
/-- One whole per-frame step for one shooting star (main.js lines 501-536):
the unconditional update followed by the guarded in-place reset. -/
noncomputable def updateShootingStar (dt : ℝ) (r : ResetRand) (s : ShootingStar) :
    ShootingStar :=
  if shouldReset (starStepCore dt s) then resetShootingStar r (starStepCore dt s)
  else starStepCore dt s

/-- Neither the core update nor the reset reassigns the main-star material. -/
@[simp] lemma updateShootingStar_materialRef (dt : ℝ) (r : ResetRand) (s : ShootingStar) :
    (updateShootingStar dt r s).materialRef = s.materialRef := by
  unfold updateShootingStar
  split <;> rfl

/-- Neither the core update nor the reset reassigns the trail material. -/
@[simp] lemma updateShootingStar_trailMaterialRef (dt : ℝ) (r : ResetRand) (s : ShootingStar) :
    (updateShootingStar dt r s).trailMaterialRef = s.trailMaterialRef := by
  unfold updateShootingStar
  split <;> rfl

/-- Trimming a list that is at most one over capacity brings it within
capacity. -/
lemma trimTrail_length_le (l : List Vec3) (h : l.length ≤ trailLength + 1) :
    (trimTrail l).length ≤ trailLength := by
  unfold trimTrail
  split
  · simp only [List.length_tail]
    omega
  · omega

/-- The length of a scaled vector scales by the absolute value. -/
lemma Vec3.norm_smul (c : ℝ) (v : Vec3) :
    Vec3.norm (Vec3.smul c v) = |c| * Vec3.norm v := by
  simp only [Vec3.norm, Vec3.smul]
  rw [show (c * v.x) ^ 2 + (c * v.y) ^ 2 + (c * v.z) ^ 2
        = c ^ 2 * (v.x ^ 2 + v.y ^ 2 + v.z ^ 2) by ring]
  rw [Real.sqrt_mul (sq_nonneg c), Real.sqrt_sq_eq_abs]

/-- Vector length is nonnegative. -/
lemma Vec3.norm_nonneg (v : Vec3) : 0 ≤ Vec3.norm v :=
  Real.sqrt_nonneg _

/-- A vector whose x component is nonzero has positive length. -/
lemma Vec3.norm_pos_of_x_ne_zero (v : Vec3) (h : v.x ≠ 0) : 0 < Vec3.norm v := by
  apply Real.sqrt_pos.mpr
  have hx : 0 < v.x ^ 2 := lt_of_le_of_ne (sq_nonneg _) (Ne.symm (pow_ne_zero 2 h))
  nlinarith [sq_nonneg v.y, sq_nonneg v.z]

/-- Normalizing a vector of nonzero length yields a unit vector. -/
lemma Vec3.norm_normalize (v : Vec3) (h : Vec3.norm v ≠ 0) :
    Vec3.norm (Vec3.normalize v) = 1 := by
  rw [Vec3.normalize, Vec3.norm_smul,
    abs_of_nonneg (one_div_nonneg.mpr (Vec3.norm_nonneg v)), one_div_mul_cancel h]

/-- C4: the per-frame trail update keeps the trail history within the
configured capacity `trailLength = 100` (as an inductive invariant:
whenever a step starts within capacity it ends within capacity — and the
reset branch empties the trail outright), and a reset leaves the trail
history with length exactly 0. -/
theorem c4_trail_bounded (dt : ℝ) (r : ResetRand) (s : ShootingStar)
    (h : s.trailPositions.length ≤ trailLength) :
    (updateShootingStar dt r s).trailPositions.length ≤ trailLength ∧
    (resetShootingStar r s).trailPositions.length = 0 := by
  constructor
  · unfold updateShootingStar
    split
    · simp [resetShootingStar]
    · unfold starStepCore
      apply trimTrail_length_le
      simp only [List.length_append, List.length_cons, List.length_nil]
      omega
  · rfl

/-- C4 witness: the trail-bound theorem applied to a concrete star (empty
trail, so within capacity) with `dt = 1` and zero random draws. -/
theorem c4_witness :
    starInit.trailPositions.length ≤ trailLength ∧
    ((updateShootingStar 1 ⟨0, 0, 0, 0, 0⟩ starInit).trailPositions.length ≤ trailLength ∧
     (resetShootingStar ⟨0, 0, 0, 0, 0⟩ starInit).trailPositions.length = 0) :=
  ⟨by decide, c4_trail_bounded 1 ⟨0, 0, 0, 0, 0⟩ starInit (by decide)⟩

/-- C5: with positive elapsed time `dt`, a shooting-star step strictly
increases the age unless it resets; it resets exactly when, after the
position/age update, the age exceeds the maximum age or some position
coordinate exceeds `1.5 * starFieldRadius` in absolute value; and a reset
leaves the age exactly 0. -/
theorem c5_age_monotone_and_reset (dt : ℝ) (r : ResetRand) (s : ShootingStar)
    (hdt : 0 < dt) :
    (¬ shouldReset (starStepCore dt s) →
       (updateShootingStar dt r s).life = s.life + dt ∧
       s.life < (updateShootingStar dt r s).life) ∧
    (shouldReset (starStepCore dt s) → (updateShootingStar dt r s).life = 0) ∧
    (shouldReset (starStepCore dt s) ↔
       (starStepCore dt s).maxLife < (starStepCore dt s).life ∨
       starFieldRadius * (3/2) < |(starStepCore dt s).position.x| ∨
       starFieldRadius * (3/2) < |(starStepCore dt s).position.y| ∨
       starFieldRadius * (3/2) < |(starStepCore dt s).position.z|) := by
  refine ⟨?_, ?_, ?_⟩
  · intro hno
    have hlife : (updateShootingStar dt r s).life = s.life + dt := by
      unfold updateShootingStar
      rw [if_neg hno]
      rfl
    exact ⟨hlife, by rw [hlife]; linarith⟩
  · intro hyes
    unfold updateShootingStar
    rw [if_pos hyes]
    rfl
  · have habs : ∀ y c : ℝ, c < |y| ↔ y > c ∨ y < -c := by
      intro y c
      rw [lt_abs]
      constructor
      · rintro (h1 | h2)
        · exact Or.inl h1
        · exact Or.inr (by linarith)
      · rintro (h1 | h2)
        · exact Or.inl h1
        · exact Or.inr (by linarith)
    unfold shouldReset
    rw [habs, habs, habs]
    simp only [neg_mul]
    constructor
    · rintro (h | h | h | h | h | h | h) <;> tauto
    · rintro (h | h | h) <;> tauto

/-- C5 witness: the age/reset theorem applied at `dt = 1`, zero random
draws, and the freshly created star object. -/
theorem c5_witness :
    (0 : ℝ) < 1 ∧
    ((¬ shouldReset (starStepCore 1 starInit) →
        (updateShootingStar 1 ⟨0, 0, 0, 0, 0⟩ starInit).life = starInit.life + 1 ∧
        starInit.life < (updateShootingStar 1 ⟨0, 0, 0, 0, 0⟩ starInit).life) ∧
     (shouldReset (starStepCore 1 starInit) →
        (updateShootingStar 1 ⟨0, 0, 0, 0, 0⟩ starInit).life = 0) ∧
     (shouldReset (starStepCore 1 starInit) ↔
        (starStepCore 1 starInit).maxLife < (starStepCore 1 starInit).life ∨
        starFieldRadius * (3/2) < |(starStepCore 1 starInit).position.x| ∨
        starFieldRadius * (3/2) < |(starStepCore 1 starInit).position.y| ∨
        starFieldRadius * (3/2) < |(starStepCore 1 starInit).position.z|)) :=
  ⟨one_pos, c5_age_monotone_and_reset 1 ⟨0, 0, 0, 0, 0⟩ starInit one_pos⟩

/-- C10: after any reset the velocity has Euclidean length exactly
`shootingStarSpeed = 250`; the start and target x coordinates differ by
exactly `2.4 * starFieldRadius` (so the normalized direction is
well-defined); and the unconditional part of the per-frame update never
modifies the velocity (only a reset reassigns it). -/
theorem c10_velocity_norm (r : ResetRand) (s : ShootingStar) (dt : ℝ) :
    Vec3.norm (resetShootingStar r s).velocity = shootingStarSpeed ∧
    (Vec3.sub (resetTargetPos r) (resetStartPos r)).x = (24/10) * starFieldRadius ∧
    (starStepCore dt s).velocity = s.velocity := by
  refine ⟨?_, ?_, rfl⟩
  · have hx : (Vec3.sub (resetTargetPos r) (resetStartPos r)).x = 1200 := by
      simp only [Vec3.sub, resetTargetPos, resetStartPos, starFieldRadius]
      norm_num
    have hpos : 0 < Vec3.norm (Vec3.sub (resetTargetPos r) (resetStartPos r)) :=
      Vec3.norm_pos_of_x_ne_zero _ (by rw [hx]; norm_num)
    have hvel : (resetShootingStar r s).velocity =
        Vec3.smul shootingStarSpeed
          (Vec3.normalize (Vec3.sub (resetTargetPos r) (resetStartPos r))) := rfl
    rw [hvel, Vec3.norm_smul, Vec3.norm_normalize _ (ne_of_gt hpos), mul_one,
      abs_of_nonneg (by norm_num [shootingStarSpeed])]
  · simp only [Vec3.sub, resetTargetPos, resetStartPos]
    ring

/-- The parts of a generic mesh (sun, corona, star field) that the frame
loop touches: the rotation angles and the identity of the referenced
material. -/
structure MeshState where
  rotX : ℝ
  rotY : ℝ
  rotZ : ℝ
  materialRef : ℕ

/-- Outcome of the render tail of one `animate` call.  The source renders
the frame with `composer.render()` (RenderPass followed by UnrealBloomPass,
main.js lines 370-381 and 569-570); there is no `try`/`catch` in `animate`
and no direct `renderer.render` fallback anywhere, so a throw inside the
composited render escapes the frame callback.  `directFallback` is the
outcome the spec describes; no code path produces it. -/
inductive FrameRender where
  | bloomComposited
  | directFallback
  | exceptionPropagated
deriving DecidableEq

/-- The render step of `animate` (main.js line 570): `composer.render();`
with no surrounding try/catch.  `bloomThrows` is the environment oracle for
"some step of the bloom pipeline throws this frame". -/
def renderWithPostProcessing (bloomThrows : Bool) : FrameRender :=
  if bloomThrows then FrameRender.exceptionPropagated else FrameRender.bloomComposited

/-- The whole scene-graph state the frame loop reads and writes. -/
structure SceneState where
  sun : MeshState
  corona : MeshState
  stars : MeshState
  sunTime : ℝ
  coronaTime : ℝ
  planets : List (PlanetData × PlanetState)
  shootingStars : List ShootingStar

/-- The `shootingStars.forEach` loop of `animate` (main.js lines 501-537),
with the random draws of any triggered resets supplied per star index. -/
noncomputable def updateStars (dt : ℝ) (rand : ℕ → ResetRand) :
    ℕ → List ShootingStar → List ShootingStar
  | _, [] => []
  | i, star :: rest =>
      updateShootingStar dt (rand i) star :: updateStars dt rand (i + 1) rest

/-- One whole `animate` call (main.js lines 477-571): rotate the sun,
corona and star field, push the clock into the shader time uniforms, step
every shooting star, step every planet, then render through the composer.
`time` is `performance.now() * 0.001`, `dt` is `clock.getDelta()`, and
`bloomThrows` tells whether the composited render throws this frame. -/
noncomputable def animateFrame (time dt : ℝ) (rand : ℕ → ResetRand)
    (bloomThrows : Bool) (s : SceneState) : SceneState × FrameRender :=
  ({ s with
      sun := { s.sun with rotY := s.sun.rotY + 5/1000, rotX := s.sun.rotX + 1/1000 },
      corona := { s.corona with rotY := s.corona.rotY - 2/1000,
                                rotZ := s.corona.rotZ + 1/1000 },
      sunTime := time,
      coronaTime := time,
      stars := { s.stars with rotY := s.stars.rotY + 1/10000 },
      shootingStars := updateStars dt rand 0 s.shootingStars,
      planets := s.planets.map (fun p => (p.1, updatePlanet time p.1 p.2)) },
   renderWithPostProcessing bloomThrows)

/-- Every material reference held by the scene, in a fixed order. -/
def sceneMaterialRefs (s : SceneState) : List ℕ :=
  s.sun.materialRef :: s.corona.materialRef :: s.stars.materialRef ::
    (s.planets.map (fun p => p.2.materialRef) ++
     s.shootingStars.map ShootingStar.materialRef ++
     s.shootingStars.map ShootingStar.trailMaterialRef)

/-- Stepping the star pool preserves each main-star material reference. -/
lemma updateStars_map_materialRef (dt : ℝ) (rand : ℕ → ResetRand)
    (i : ℕ) (l : List ShootingStar) :
    List.map ShootingStar.materialRef (updateStars dt rand i l) =
      List.map ShootingStar.materialRef l := by
  induction l generalizing i with
  | nil => rfl
  | cons a rest ih => simp [updateStars, ih]

/-- Stepping the star pool preserves each trail material reference. -/
lemma updateStars_map_trailMaterialRef (dt : ℝ) (rand : ℕ → ResetRand)
    (i : ℕ) (l : List ShootingStar) :
    List.map ShootingStar.trailMaterialRef (updateStars dt rand i l) =
      List.map ShootingStar.trailMaterialRef l := by
  induction l generalizing i with
  | nil => rfl
  | cons a rest ih => simp [updateStars, ih]

/-- C1: a full frame — including the bloom-compositing render — leaves every
scene object referencing the identical material it referenced before the
frame.  (The program contains no darken/restore material swap at all: the
frame update mutates transforms, uniforms and material properties such as
opacity, but never reassigns any `material` reference, and the composited
render reads the scene without touching it, so no material can leak across
frames.) -/
theorem c1_material_refs_preserved (time dt : ℝ) (rand : ℕ → ResetRand)
    (bloomThrows : Bool) (s : SceneState) :
    sceneMaterialRefs (animateFrame time dt rand bloomThrows s).1 =
      sceneMaterialRefs s := by
  simp [animateFrame, sceneMaterialRefs, List.map_map, Function.comp_def,
    updateStars_map_materialRef, updateStars_map_trailMaterialRef]

/-- A minimal concrete scene used to exhibit the render outcome of a frame
whose bloom pipeline throws. -/
def testScene : SceneState :=
  { sun := ⟨0, 0, 0, 0⟩, corona := ⟨0, 0, 0, 1⟩, stars := ⟨0, 0, 0, 2⟩,
    sunTime := 0, coronaTime := 0, planets := [], shootingStars := [] }

/-- C2 counterexample: on a frame whose bloom pipeline throws, the program
produces `exceptionPropagated`, not the direct (non-bloom) fallback render
the claim describes — `animate` has no try/catch and never calls
`renderer.render`. -/
theorem c2_counterexample :
    (animateFrame 0 0 (fun _ => ⟨0, 0, 0, 0, 0⟩) true testScene).2 =
      FrameRender.exceptionPropagated ∧
    FrameRender.exceptionPropagated ≠ FrameRender.directFallback :=
  ⟨rfl, by decide⟩

/-- C2 amended: if any step of the per-frame bloom render pipeline throws,
the exception propagates out of the frame callback; no fallback direct
render is performed for that frame. -/
theorem c2_amended_exception_propagates (time dt : ℝ) (rand : ℕ → ResetRand)
    (s : SceneState) :
    (animateFrame time dt rand true s).2 = FrameRender.exceptionPropagated := rfl

/-- C6 counterexample: the scene contains no moon at all — every entry of
`planetsData` has a name different from "Moon" (the table holds exactly the
eight planets), so no body's position is computed relative to an
Earth-attached orbit pivot. -/
theorem c6_counterexample :
    planetsData.all (fun d => d.name != "Moon") = true := by decide

/-- C6 amended: there is no moon body.  The body table holds exactly the
eight planets Mercury through Neptune, and each body's per-frame position
is set in the world frame (relative to the origin, where the sun sits) by
the elliptical-orbit formula; no parent pivot exists. -/
theorem c6_no_moon_world_frame :
    planetsData.map PlanetData.name =
      ["Mercury", "Venus", "Earth", "Mars", "Jupiter", "Saturn", "Uranus", "Neptune"] ∧
    ∀ (d : PlanetData) (st : PlanetState) (t : ℝ),
      (updatePlanet t d st).position =
        ⟨(d.orbitalRadius : ℝ) * Real.cos (t * (d.orbitalSpeed : ℝ)),
         Real.sin (t * (d.orbitalSpeed : ℝ)) * Real.sin (tiltAngle d) *
           (d.orbitalRadius : ℝ) * (5/100),
         (d.orbitalRadius : ℝ) *
           Real.sqrt (1 - (d.eccentricity : ℝ) * (d.eccentricity : ℝ)) *
           Real.sin (t * (d.orbitalSpeed : ℝ))⟩ :=
  ⟨rfl, fun _ _ _ => rfl⟩

/-- The observable configuration of one `MeshStandardMaterial` as built by
the planet-creation loop (main.js lines 152-225): which maps were attached
and the scalar parameters the code sets. -/
structure StdMaterial where
  map : Option String
  normalMap : Option String
  bumpMap : Option String
  roughnessMap : Option String
  color : Option ℕ
  metalness : ℚ
  roughness : ℚ
deriving DecidableEq

/-- The fallback flat-colour material built in the catch branch and in the
no-texture branch (main.js lines 212-216 and 220-224):
`MeshStandardMaterial({ color, metalness: 0.0, roughness: 0.7 })`. -/
def fallbackMaterial (c : ℕ) : StdMaterial :=
  { map := none, normalMap := none, bumpMap := none, roughnessMap := none,
    color := some c, metalness := 0, roughness := 7/10 }

/-- The material-creation logic of the planet loop (main.js lines 152-225).
`loadOk tex` is the oracle for "the texture fetch for `tex` succeeds": a
failing fetch raises inside the `try`, is caught, and the body falls back to
`fallbackMaterial`.  The per-planet extra maps (Earth normal/specular,
Mercury and Venus bump, Mars normal) sit in nested `try` blocks whose catch
merely logs, leaving the partially configured textured material in place.
The function is total: no exception escapes the loop body. -/
def createPlanetMaterial (loadOk : String → Bool) (d : PlanetData) : StdMaterial :=
  match d.texture with
  | some tex =>
    if loadOk tex then
      let base : StdMaterial :=
        { map := some tex, normalMap := none, bumpMap := none, roughnessMap := none,
          color := none, metalness := 0, roughness := 7/10 }
      if d.name = "Earth" then
        if loadOk ("textures/earth_normal.jpg") then
          let m1 := { base with normalMap := some ("textures/earth_normal.jpg") }
          if loadOk ("textures/earth_specular.jpg") then
            { m1 with roughnessMap := some ("textures/earth_specular.jpg"),
                      roughness := 1/2 }
          else m1
        else base
      else if d.name = "Mercury" then
        if loadOk ("textures/mercury_bump.jpg") then
          { base with bumpMap := some ("textures/mercury_bump.jpg") }
        else base
      else if d.name = "Venus" then
        if loadOk ("textures/venus_bump.jpg") then
          { base with bumpMap := some ("textures/venus_bump.jpg") }
        else base
      else if d.name = "Mars" then
        if loadOk ("textures/mars_normal.jpg") then
          { base with normalMap := some ("textures/mars_normal.jpg") }
        else base
      else base
    else fallbackMaterial d.color
  | none => fallbackMaterial d.color

/-- C7: a body whose texture fetch fails gets exactly the fallback
flat-colour material, and the whole construction loop still produces one
material per body (the creation function is total — the catch consumes the
failure, so no exception escapes scene construction). -/
theorem c7_texture_failure_fallback (loadOk : String → Bool) (d : PlanetData)
    (tex : String) (htex : d.texture = some tex) (hfail : loadOk tex = false) :
    createPlanetMaterial loadOk d = fallbackMaterial d.color ∧
    (planetsData.map (createPlanetMaterial loadOk)).length = planetsData.length := by
  constructor
  · unfold createPlanetMaterial
    rw [htex]
    simp [hfail]
  · simp

/-- C7 witness: with a loader that fails every fetch, Mercury gets its
fallback flat-colour material and the loop still yields eight materials. -/
theorem c7_witness :
    mercuryData.texture = some ("textures/mercury.jpg") ∧
    (fun _ : String => false) ("textures/mercury.jpg") = false ∧
    (createPlanetMaterial (fun _ => false) mercuryData = fallbackMaterial mercuryData.color ∧
     (planetsData.map (createPlanetMaterial (fun _ => false))).length = planetsData.length) :=
  ⟨rfl, rfl,
   c7_texture_failure_fallback (fun _ => false) mercuryData ("textures/mercury.jpg") rfl rfl⟩

/-- The camera, renderer, composer and bloom-pass dimension state the
window-resize listener touches (main.js lines 578-585), together with
camera fields the listener leaves alone. -/
structure ViewState where
  cameraFov : ℝ
  cameraPosZ : ℝ
  cameraAspect : ℝ
  projectionAspect : ℝ
  rendererWidth : ℝ
  rendererHeight : ℝ
  pixelRatio : ℝ
  composerWidth : ℝ
  composerHeight : ℝ
  bloomResX : ℝ
  bloomResY : ℝ

/-- The resize listener body (main.js lines 578-585):

```
camera.aspect = window.innerWidth / window.innerHeight;
camera.updateProjectionMatrix();
renderer.setSize(window.innerWidth, window.innerHeight);
renderer.setPixelRatio(Math.min(window.devicePixelRatio, 2));
composer.setSize(window.innerWidth, window.innerHeight);
bloomPass.resolution.set(window.innerWidth, window.innerHeight);
```

`updateProjectionMatrix` commits the freshly assigned aspect into the
projection, modelled by `projectionAspect`. -/
noncomputable def onWindowResize (w h dpr : ℝ) (v : ViewState) : ViewState :=
  { v with
    cameraAspect := w / h,
    projectionAspect := w / h,
    rendererWidth := w, rendererHeight := h,
    pixelRatio := min dpr 2,
    composerWidth := w, composerHeight := h,
    bloomResX := w, bloomResY := h }

/-- The resize listener as a transformer of the whole application state:
its body touches only camera/renderer/composer/bloom dimensions and leaves
the scene graph untouched (no statement of the listener reads or writes any
scene object). -/
noncomputable def resizeHandler (w h dpr : ℝ) (st : ViewState × SceneState) :
    ViewState × SceneState :=
  (onWindowResize w h dpr st.1, st.2)

/-- C8: a resize to `(w, h)` sets the camera aspect ratio to `w / h` and the
renderer, composer and bloom-pass dimensions to `(w, h)`, leaves the entire
scene graph (hence every object position, rotation and scale) unchanged,
and is idempotent: running the handler twice with the same dimensions gives
the same state as running it once. -/
theorem c8_resize_updates_and_idempotent (w h dpr : ℝ) (st : ViewState × SceneState) :
    (resizeHandler w h dpr st).1.cameraAspect = w / h ∧
    (resizeHandler w h dpr st).1.rendererWidth = w ∧
    (resizeHandler w h dpr st).1.rendererHeight = h ∧
    (resizeHandler w h dpr st).1.composerWidth = w ∧
    (resizeHandler w h dpr st).1.composerHeight = h ∧
    (resizeHandler w h dpr st).1.bloomResX = w ∧
    (resizeHandler w h dpr st).1.bloomResY = h ∧
    (resizeHandler w h dpr st).2 = st.2 ∧
    resizeHandler w h dpr (resizeHandler w h dpr st) = resizeHandler w h dpr st :=
  ⟨rfl, rfl, rfl, rfl, rfl, rfl, rfl, rfl, rfl⟩
